import Mathlib

/-!
# Verification of the `dino` browser-automation shim

A shallow embedding of `src/dino.py`: a thin Python class `Dino` that drives
the Chrome T-Rex runner game through a selenium webdriver, by sending
synthetic keystrokes and evaluating inline JavaScript snippets.

The embedding models every interaction with the selenium driver as an event
in a trace (`DriverEvent`), the in-page game as an oracle record (`Page`)
supplying the values the evaluated scripts would return, and each method of
the class as a pure function from the object state (`Dino`) and the page to
an `OpResult`: the trace of driver interactions, the `time.sleep` calls, the
stdout lines printed, the returned value or raised exception, and the
post-call object state.  Script strings are reproduced exactly as the Python
source builds them (including the spaces a backslash line continuation
inside a string literal keeps).
-/

namespace DinoPy

/-- Default URL to the dino game (module constant `gameURL`, line 21). -/
def gameURL : String := "chrome://dino/"

/-- ID added to the canvas (module constant `canvasID`, line 24). -/
def canvasID : String := "runner-canvas"

/-- A run of `n` spaces, used to reproduce the indentation that Python
backslash line continuations keep inside string literals. -/
def sp (n : Nat) : String := String.mk (List.replicate n ' ')

/-- Keys sent by the class (`Keys.SPACE`, `Keys.ARROW_DOWN`, `Keys.SHIFT`). -/
inductive Key where
  | space
  | arrowDown
  | shift
  deriving DecidableEq, Repr

/-- One interaction with the selenium driver, recorded in order. -/
inductive DriverEvent where
  /-- `webdriver.Chrome(driverPath, chrome_options=options)`: creation of a
  fresh Chrome driver with the given option arguments. -/
  | createChrome (optionArgs : List String)
  /-- `driver.get(url)` -/
  | navigate (url : String)
  /-- `driver.execute_script(script)` -/
  | executeScript (script : String)
  /-- `element.send_keys(key)` on the element with the given handle -/
  | sendKeys (element : Nat) (k : Key)
  /-- `ActionChains(driver).key_down(key).perform()` -/
  | keyDown (k : Key)
  /-- `ActionChains(driver).key_up(key).perform()` -/
  | keyUp (k : Key)
  /-- `driver.find_element(By.TAG_NAME, tag)` -/
  | findElementByTagName (tag : String)
  /-- `driver.find_element(By.ID, id)` -/
  | findElementById (id : String)
  /-- `driver.close()` -/
  | close
  deriving DecidableEq, Repr

/-- Events that send a synthetic keystroke to the browser. -/
def DriverEvent.isKeystroke : DriverEvent → Bool
  | .sendKeys _ _ => true
  | .keyDown _ => true
  | .keyUp _ => true
  | _ => false

/-- Events that evaluate an inline script snippet. -/
def DriverEvent.isScriptEval : DriverEvent → Bool
  | .executeScript _ => true
  | _ => false

/-- Events that talk to the browser page (everything except creating the
driver itself). -/
def DriverEvent.isPageInteraction : DriverEvent → Bool
  | .createChrome _ => false
  | _ => true

/-- Events that navigate the session to a URL. -/
def DriverEvent.isNavigate : DriverEvent → Bool
  | .navigate _ => true
  | _ => false

/-- Python exceptions the embedded code can raise. -/
inductive PyError where
  | attributeError (name : String)
  | zeroDivisionError
  | valueError (literal : String)
  deriving DecidableEq, Repr

/-- Values returned to Python from the driver (JavaScript results mapped to
Python values), plus the object itself (`start` returns `self`). -/
inductive Value where
  | pyNone
  | bool (b : Bool)
  | int (n : Int)
  | float (q : Rat)
  | str (s : String)
  | strList (ss : List String)
  | obj (handle : Nat)
  | selfDino
  deriving DecidableEq, Repr

/-- Outcome of a Python call: a returned value or a raised exception. -/
inductive PyResult where
  | ok (v : Value)
  | raised (e : PyError)
  deriving DecidableEq, Repr

/-- The in-page game, as an oracle for the values the inline scripts return.
`imageData` is `canvas.toDataURL().substring(22)`; `config`, `bodyElem`,
`canvasElem`, `obstacles` and `tRex` are opaque handles to the JavaScript
objects the scripts return. -/
structure Page where
  crashed : Bool
  playing : Bool
  digits : List String
  currentSpeed : Rat
  pterodactylX : Int
  config : Nat
  bodyElem : Nat
  canvasElem : Nat
  imageData : String
  obstacles : Nat
  tRex : Nat
  deriving DecidableEq, Repr

/-- The fields of a `Dino` object.  `none` in an `Option` field models a
Python attribute that has not been assigned yet (`pterodactylx`,
`gameConfig`, `body` and `canvas` only exist after `_setup` ran); `_driver`
is `none` when the constructor received `driver=None` and `_setup` has not
created one. -/
structure Dino where
  _driver : Option Nat
  url : String
  _mute : Bool
  pterodactylx : Option Int := none
  gameConfig : Option Nat := none
  body : Option Nat := none
  canvas : Option Nat := none
  deriving DecidableEq, Repr

/-- `Dino.__init__(self, driver=None, url=None, mute=True)` (lines 33-43):
`self.url = gameURL if url == None else url`. -/
def Dino.init (driver : Option Nat) (url : Option String) (mute : Bool) : Dino :=
  { _driver := driver
    url := match url with
      | Option.none => gameURL
      | some u => u
    _mute := mute }

/-- Result of one method call: the driver-interaction trace, the
`time.sleep` durations, the stdout lines printed, the returned value or
raised exception, and the object state after the call. -/
structure OpResult where
  trace : List DriverEvent
  sleeps : List Rat
  stdout : List String
  result : PyResult
  state : Dino
  deriving DecidableEq, Repr

/-! ## The inline script strings

Reproduced character for character from the Python source.  `\x27` is an
apostrophe, `\x7b`/`\x7d` are braces.  A backslash at the end of a line
inside a Python string literal removes the newline but keeps the next
line's indentation, hence the `sp` blocks. -/

/-- Script of `_setup`, line 63-64:
`"document.getElementsByClassName('runner-canvas')[0].id = '{}'".format(canvasID)`. -/
def canvasIdScript : String :=
  "document.getElementsByClassName(\x27runner-canvas\x27)[0].id = \x27" ++ canvasID ++ "\x27"

/-- Script of `_setup`, line 68-69, registering Shift (code 16) as a duck key. -/
def duckKeycodesScript : String :=
  "Runner.keycodes[\x27DUCK\x27] = \x7b\x2740\x27 : 1, \x2716\x27 : 1\x7d;"

/-- Script of the `image` property, lines 165-167. -/
def imageScript : String :=
  "canvasRunner = document.getElementById(\x27runner-canvas\x27);" ++ sp 12
    ++ "return canvasRunner.toDataURL().substring(22)"

/-- Script of the `obstacles` property, lines 173-179. -/
def obstaclesScript : String :=
  "obst = [];" ++ sp 43
    ++ "Runner.instance_.horizon.obstacles.forEach(" ++ sp 43
    ++ "function(e)\x7b" ++ sp 43
    ++ "e = Object.assign(\x7b\x7d,e);" ++ sp 43
    ++ "delete e.canvasCtx;" ++ sp 43
    ++ "obst.push(e)\x7d);" ++ sp 43
    ++ "return obst"

/-- Script of the `tRex` property, lines 184-189. -/
def tRexScript : String :=
  "trex = Object.assign(\x7b\x7d,Runner.instance_.tRex);" ++ sp 43
    ++ "delete trex.canvas;" ++ sp 43
    ++ "delete trex.canvasCtx;" ++ sp 43
    ++ "delete trex.currentAnimFrames;" ++ sp 43
    ++ "delete trex.config;" ++ sp 43
    ++ "return trex"

/-- Script of `pause`, line 125. -/
def pauseScript : String := "return Runner.instance_.stop()"

/-- Script of `resume`, line 128. -/
def resumeScript : String := "return Runner.instance_.play()"

/-- The value the page returns for `execute_script("return " + property)`,
for the properties the class queries. -/
def Page.eval (p : Page) (property : String) : Value :=
  if property = "Runner.spriteDefinition.LDPI.PTERODACTYL.x" then .int p.pterodactylX
  else if property = "Runner.config" then .obj p.config
  else if property = "Runner.instance_.crashed" then .bool p.crashed
  else if property = "Runner.instance_.playing" then .bool p.playing
  else if property = "Runner.instance_.distanceMeter.digits" then .strList p.digits
  else if property = "Runner.instance_.currentSpeed" then .float p.currentSpeed
  else .pyNone

/-! ## Python `int(str)` -/

/-- Tail of a valid Python decimal digit group: digits, with single
underscores allowed between digits. -/
def pyDigitsTail : List Char → Bool
  | [] => true
  | c :: cs =>
      if c = '_' then
        match cs with
        | [] => false
        | d :: ds => d.isDigit && pyDigitsTail ds
      else
        c.isDigit && pyDigitsTail cs

/-- A valid Python decimal digit group: nonempty, starts with a digit,
single underscores allowed between digits. -/
def pyDigitsValid : List Char → Bool
  | [] => false
  | c :: cs => c.isDigit && pyDigitsTail cs

/-- Decimal value of a digit group, skipping underscores. -/
def digitsVal (cs : List Char) : Nat :=
  cs.foldl (fun acc c => if c.isDigit then 10 * acc + (c.toNat - 48) else acc) 0

/-- Surrounding-whitespace stripping done by Python `int`. -/
def stripWs (cs : List Char) : List Char :=
  ((cs.dropWhile Char.isWhitespace).reverse.dropWhile Char.isWhitespace).reverse

/-- Python `int(s)` for a decimal string: optional surrounding whitespace,
optional sign, then a digit group; `none` models a raised `ValueError`. -/
def pyInt (s : String) : Option Int :=
  match stripWs s.toList with
  | [] => Option.none
  | c :: rest =>
      if c = '+' then
        (if pyDigitsValid rest then some ((digitsVal rest : Int)) else Option.none)
      else if c = '-' then
        (if pyDigitsValid rest then some (-(digitsVal rest : Int)) else Option.none)
      else
        (if pyDigitsValid (c :: rest) then some ((digitsVal (c :: rest) : Int)) else Option.none)

/-! ## The methods of the class -/

/-- The option arguments `_setup` passes to `webdriver.Chrome` when it has
to create a driver (lines 51-54): `disable-infobars` always, `--mute-audio`
exactly when `self._mute == True`. -/
def chromeOptionArgs (mute : Bool) : List String :=
  ["disable-infobars"] ++ if mute = true then ["--mute-audio"] else []

/-- `Dino._setup(self)` (lines 45-80).  `page` supplies the values the page
returns; `freshDriver` is the handle the newly created Chrome driver would
get when no driver was supplied at construction.  Returns the trace of
driver interactions and the object state afterwards. -/
def Dino._setup (d : Dino) (page : Page) (freshDriver : Nat) :
    List DriverEvent × Dino :=
  let (createSteps, drv) :=
    match d._driver with
    | Option.none =>
        ([DriverEvent.createChrome (chromeOptionArgs d._mute)], freshDriver)
    | some h => ([], h)
  (createSteps ++
    [DriverEvent.navigate d.url,
     DriverEvent.executeScript canvasIdScript,
     DriverEvent.executeScript duckKeycodesScript,
     DriverEvent.executeScript ("return " ++ "Runner.spriteDefinition.LDPI.PTERODACTYL.x"),
     DriverEvent.executeScript ("return " ++ "Runner.config"),
     DriverEvent.findElementByTagName "body",
     DriverEvent.findElementById canvasID],
   { d with
      _driver := some drv
      pterodactylx := some page.pterodactylX
      gameConfig := some page.config
      body := some page.bodyElem
      canvas := some page.canvasElem })

/-- `Dino.jump(self)` (lines 100-103): `self.body.send_keys(Keys.SPACE)`.
Raises `AttributeError` when `_setup` has not assigned `self.body`. -/
def Dino.jump (d : Dino) : OpResult :=
  match d.body with
  | Option.none =>
      { trace := [], sleeps := [], stdout := [],
        result := .raised (.attributeError "body"), state := d }
  | some b =>
      { trace := [.sendKeys b .space], sleeps := [], stdout := [],
        result := .ok .pyNone, state := d }

/-- `Dino.cancelJump(self)` (lines 121-122):
`self.body.send_keys(Keys.ARROW_DOWN)`. -/
def Dino.cancelJump (d : Dino) : OpResult :=
  match d.body with
  | Option.none =>
      { trace := [], sleeps := [], stdout := [],
        result := .raised (.attributeError "body"), state := d }
  | some b =>
      { trace := [.sendKeys b .arrowDown], sleeps := [], stdout := [],
        result := .ok .pyNone, state := d }

/-- `Dino.duck(self, delay=None)` (lines 105-119).  With `delay=None` it
first evaluates `(self.pterodactylx+20)/self.speed` — reading the speed is
one script evaluation, and a zero speed raises `ZeroDivisionError` — then
overwrites that value with `.5`.  Then Shift is held down for `delay`
seconds.  Returns the delay slept in `sleeps`. -/
def Dino.duck (d : Dino) (page : Page) (delay : Option Rat) : OpResult :=
  match delay with
  | some t =>
      { trace := [.keyDown .shift, .keyUp .shift], sleeps := [t], stdout := [],
        result := .ok .pyNone, state := d }
  | Option.none =>
      match d.pterodactylx with
      | Option.none =>
          { trace := [], sleeps := [], stdout := [],
            result := .raised (.attributeError "pterodactylx"), state := d }
      | some px =>
          let speedQuery := DriverEvent.executeScript ("return " ++ "Runner.instance_.currentSpeed")
          if page.currentSpeed = 0 then
            { trace := [speedQuery], sleeps := [], stdout := [],
              result := .raised .zeroDivisionError, state := d }
          else
            let _discarded : Rat := ((px : Rat) + 20) / page.currentSpeed
            let used : Rat := 1/2
            { trace := [speedQuery, .keyDown .shift, .keyUp .shift],
              sleeps := [used], stdout := [], result := .ok .pyNone, state := d }

/-- `Dino.pause(self)` (lines 124-125):
`return self._driver.execute_script("return Runner.instance_.stop()")`. -/
def Dino.pause (d : Dino) : OpResult :=
  match d._driver with
  | Option.none =>
      { trace := [], sleeps := [], stdout := [],
        result := .raised (.attributeError "NoneType"), state := d }
  | some _ =>
      { trace := [.executeScript pauseScript], sleeps := [], stdout := [],
        result := .ok .pyNone, state := d }

/-- `Dino.resume(self)` (lines 127-128):
`return self._driver.execute_script("return Runner.instance_.play()")`. -/
def Dino.resume (d : Dino) : OpResult :=
  match d._driver with
  | Option.none =>
      { trace := [], sleeps := [], stdout := [],
        result := .raised (.attributeError "NoneType"), state := d }
  | some _ =>
      { trace := [.executeScript resumeScript], sleeps := [], stdout := [],
        result := .ok .pyNone, state := d }

/-- `Dino.end(self)` (lines 130-134): `try: self._driver.close() except: pass`.
`closeOutcome` is what `driver.close()` does (`some e` = it raises `e`); the
bare `except` suppresses every exception, including the `AttributeError`
from `None.close()` when no driver exists yet. -/
def Dino.end' (d : Dino) (closeOutcome : Option PyError) : OpResult :=
  match d._driver, closeOutcome with
  | Option.none, _ =>
      { trace := [], sleeps := [], stdout := [],
        result := .ok .pyNone, state := d }
  | some _, _ =>
      { trace := [.close], sleeps := [], stdout := [],
        result := .ok .pyNone, state := d }

/-- `Dino.getProperty(self, property)` (lines 136-138):
`return self._driver.execute_script("return {}".format(property))`. -/
def Dino.getProperty (d : Dino) (page : Page) (property : String) : OpResult :=
  match d._driver with
  | Option.none =>
      { trace := [], sleeps := [], stdout := [],
        result := .raised (.attributeError "NoneType"), state := d }
  | some _ =>
      { trace := [.executeScript ("return " ++ property)], sleeps := [], stdout := [],
        result := .ok (page.eval property), state := d }

/-- `Dino.crashed` property (lines 140-143). -/
def Dino.crashed (d : Dino) (page : Page) : OpResult :=
  d.getProperty page "Runner.instance_.crashed"

/-- `Dino.playing` property (lines 145-148). -/
def Dino.playing (d : Dino) (page : Page) : OpResult :=
  d.getProperty page "Runner.instance_.playing"

/-- `Dino.score` property (lines 150-155): joins the distance meter's digit
strings and applies Python `int`. -/
def Dino.score (d : Dino) (page : Page) : OpResult :=
  let q := d.getProperty page "Runner.instance_.distanceMeter.digits"
  match q.result with
  | .raised e => { q with result := .raised e }
  | .ok _ =>
      let joined := String.join page.digits
      { q with
        result :=
          match pyInt joined with
          | some n => .ok (.int n)
          | Option.none => .raised (.valueError joined) }

/-- `Dino.speed` property (lines 157-160):
`float(self.getProperty("Runner.instance_.currentSpeed"))`. -/
def Dino.speed (d : Dino) (page : Page) : OpResult :=
  let q := d.getProperty page "Runner.instance_.currentSpeed"
  match q.result with
  | .raised e => { q with result := .raised e }
  | .ok _ => { q with result := .ok (.float page.currentSpeed) }

/-- `Dino.image` property (lines 162-167). -/
def Dino.image (d : Dino) (page : Page) : OpResult :=
  match d._driver with
  | Option.none =>
      { trace := [], sleeps := [], stdout := [],
        result := .raised (.attributeError "NoneType"), state := d }
  | some _ =>
      { trace := [.executeScript imageScript], sleeps := [], stdout := [],
        result := .ok (.str page.imageData), state := d }

/-- `Dino.obstacles` property (lines 169-179); prints `"Obstacles"` first. -/
def Dino.obstacles (d : Dino) (page : Page) : OpResult :=
  match d._driver with
  | Option.none =>
      { trace := [], sleeps := [], stdout := ["Obstacles"],
        result := .raised (.attributeError "NoneType"), state := d }
  | some _ =>
      { trace := [.executeScript obstaclesScript], sleeps := [], stdout := ["Obstacles"],
        result := .ok (.obj page.obstacles), state := d }

/-- `Dino.tRex` property (lines 181-189). -/
def Dino.tRex (d : Dino) (page : Page) : OpResult :=
  match d._driver with
  | Option.none =>
      { trace := [], sleeps := [], stdout := [],
        result := .raised (.attributeError "NoneType"), state := d }
  | some _ =>
      { trace := [.executeScript tRexScript], sleeps := [], stdout := [],
        result := .ok (.obj page.tRex), state := d }

/-- `Dino.start(self, delay=3.)` (lines 82-98): `_setup`, then `jump`, then
`time.sleep(delay)`, then `return self`. -/
def Dino.start (d : Dino) (page : Page) (freshDriver : Nat) (delay : Rat) : OpResult :=
  let (setupTrace, d2) := d._setup page freshDriver
  let j := d2.jump
  { trace := setupTrace ++ j.trace
    sleeps := [delay]
    stdout := []
    result := match j.result with
      | .raised e => .raised e
      | .ok _ => .ok .selfDino
    state := j.state }

/-! ## The public interface, as one dispatch function -/

/-- The public (not underscore-prefixed) methods and properties of class
`Dino`, in source order. -/
inductive PublicOp where
  | start
  | jump
  | duck
  | cancelJump
  | pause
  | resume
  | end'
  | getProperty
  | crashed
  | playing
  | score
  | speed
  | image
  | obstacles
  | tRex
  deriving DecidableEq, Repr

/-- The Python name of each public member. -/
def PublicOp.pyName : PublicOp → String
  | .start => "start"
  | .jump => "jump"
  | .duck => "duck"
  | .cancelJump => "cancelJump"
  | .pause => "pause"
  | .resume => "resume"
  | .end' => "end"
  | .getProperty => "getProperty"
  | .crashed => "crashed"
  | .playing => "playing"
  | .score => "score"
  | .speed => "speed"
  | .image => "image"
  | .obstacles => "obstacles"
  | .tRex => "tRex"

/-- All public members of the class, in source order. -/
def publicOps : List PublicOp :=
  [.start, .jump, .duck, .cancelJump, .pause, .resume, .end', .getProperty,
   .crashed, .playing, .score, .speed, .image, .obstacles, .tRex]

/-- The Python names of the public members of class `Dino`, in source
order (`_setup` and dunder methods excluded). -/
def publicMembers : List String := publicOps.map PublicOp.pyName

/-- Arguments a public call may take (one record so every call has the
same shape): `property` for `getProperty`, `duckDelay` for `duck`,
`startDelay` and `freshDriver` for `start`, `closeOutcome` for `end`. -/
structure OpArgs where
  property : String
  duckDelay : Option Rat
  startDelay : Rat
  freshDriver : Nat
  closeOutcome : Option PyError
  deriving Repr

/-- Dispatch a public call to the corresponding method. -/
def runOp (op : PublicOp) (d : Dino) (page : Page) (a : OpArgs) : OpResult :=
  match op with
  | .start => d.start page a.freshDriver a.startDelay
  | .jump => d.jump
  | .duck => d.duck page a.duckDelay
  | .cancelJump => d.cancelJump
  | .pause => d.pause
  | .resume => d.resume
  | .end' => d.end' a.closeOutcome
  | .getProperty => d.getProperty page a.property
  | .crashed => d.crashed page
  | .playing => d.playing page
  | .score => d.score page
  | .speed => d.speed page
  | .image => d.image page
  | .obstacles => d.obstacles page
  | .tRex => d.tRex page

/-- The state-accessor properties of the class. -/
def accessorOps : List PublicOp :=
  [.crashed, .playing, .score, .speed, .obstacles, .tRex, .image]

/-- Every public operation except `start` and `duck`. -/
def singleShotOps : List PublicOp :=
  [.jump, .cancelJump, .pause, .resume, .end', .getProperty,
   .crashed, .playing, .score, .speed, .image, .obstacles, .tRex]

/-- `pat` occurs as a contiguous sublist of `l`. -/
def containsSub (pat : List Char) : List Char → Bool
  | [] => pat.isEmpty
  | c :: cs => pat.isPrefixOf (c :: cs) || containsSub pat cs

/-- A script mentions the page's global game object when it contains the
text `Runner.instance_`. -/
def mentionsRunnerGlobal (s : String) : Bool :=
  containsSub "Runner.instance_".toList s.toList

/-! ## The demonstration driver loop (`__main__`, lines 192-206) -/

/-- The action list of the demo loop, line 202:
`10*[dino.jump] + [dino.duck, dino.cancelJump]`. -/
def demoActions : List PublicOp :=
  List.replicate 10 PublicOp.jump ++ [PublicOp.duck, PublicOp.cancelJump]

/-- `random.choice(lst)`, with the random draw modelled as an index into
the list (reduced modulo its length). -/
def randomChoice (lst : List PublicOp) (draw : Nat) : PublicOp :=
  lst.getD (draw % lst.length) PublicOp.jump

/-- The arguments the demo loop passes: every action is called with no
arguments, so `duck` runs with `delay=None`. -/
def demoArgs : OpArgs :=
  { property := "", duckDelay := Option.none, startDelay := 3, freshDriver := 0,
    closeOutcome := Option.none }

/-- The sequence of actions the demo loop chooses for a list of random
draws: `random.choice` over `demoActions`, one per iteration.  Depends on
the draws alone. -/
def demoChosen (draws : List Nat) : List PublicOp :=
  draws.map (randomChoice demoActions)

/-- The sequence of actions the demo loop performs on a given object and
page, for a list of random draws.  Each iteration calls the chosen action;
when the call raises, the bare `except` ends the loop (with `dino.end()`),
so no further action runs. -/
def demoRun (draws : List Nat) (d : Dino) (page : Page) : List PublicOp :=
  match draws with
  | [] => []
  | r :: rs =>
      let op := randomChoice demoActions r
      match (runOp op d page demoArgs).result with
      | .raised _ => [op]
      | .ok _ => op :: demoRun rs d page

/-! ## Concrete objects for witnesses and counterexamples -/

/-- A page in a typical mid-game state. -/
def defaultPage : Page :=
  { crashed := false, playing := true, digits := ["0", "0", "1", "2", "3"],
    currentSpeed := 6, pterodactylX := 134, config := 7, bodyElem := 2,
    canvasElem := 3, imageData := "iVBOR", obstacles := 11, tRex := 12 }

/-- The same page with the game stopped: `Runner.instance_.currentSpeed` is 0. -/
def stoppedPage : Page :=
  { defaultPage with currentSpeed := 0 }

/-- A `Dino` object after `start` ran: driver live, setup fields assigned. -/
def readyDino : Dino :=
  { _driver := some 1, url := gameURL, _mute := true, pterodactylx := some 134,
    gameConfig := some 7, body := some 2, canvas := some 3 }

/-! ## Helper lemmas -/

lemma char_digit_not_special (c : Char) (h : c.isDigit = true) :
    c.isWhitespace = false ∧ c ≠ '_' ∧ c ≠ '+' ∧ c ≠ '-' := by
  refine ⟨?_, ?_, ?_, ?_⟩
  · by_contra hw
    rw [Bool.not_eq_false] at hw
    simp only [Char.isWhitespace, Bool.or_eq_true, decide_eq_true_eq] at hw
    rcases hw with ((h1 | h1) | h1) | h1 <;> subst h1 <;> exact absurd h (by decide)
  · intro h1; subst h1; exact absurd h (by decide)
  · intro h1; subst h1; exact absurd h (by decide)
  · intro h1; subst h1; exact absurd h (by decide)

lemma dropWhile_eq_self_of_forall (p : Char → Bool) (cs : List Char)
    (h : ∀ c ∈ cs, p c = false) : cs.dropWhile p = cs := by
  cases cs with
  | nil => rfl
  | cons c cs => rw [List.dropWhile_cons, h c (by simp)]; simp

lemma stripWs_eq_self (cs : List Char) (h : ∀ c ∈ cs, c.isWhitespace = false) :
    stripWs cs = cs := by
  unfold stripWs
  rw [dropWhile_eq_self_of_forall _ _ h,
    dropWhile_eq_self_of_forall _ _ (fun c hc => h c (List.mem_reverse.mp hc))]
  exact List.reverse_reverse cs

lemma pyDigitsTail_of_all_digits (cs : List Char) (h : ∀ c ∈ cs, c.isDigit = true) :
    pyDigitsTail cs = true := by
  induction cs with
  | nil => rfl
  | cons c cs ih =>
    have hc := h c (by simp)
    have hne : c ≠ '_' := (char_digit_not_special c hc).2.1
    unfold pyDigitsTail
    rw [if_neg hne, hc, ih (fun x hx => h x (List.mem_cons_of_mem _ hx))]
    rfl

lemma string_eq_empty_of_data_eq_nil (s : String) (h : s.data = []) : s = "" := by
  cases s
  simp_all

lemma pyInt_of_all_digits (s : String) (hne : s.data ≠ [])
    (h : ∀ x ∈ s.data, x.isDigit = true) : pyInt s = some ((digitsVal s.data : Int)) := by
  have hw : ∀ x ∈ s.data, Char.isWhitespace x = false :=
    fun x hx => (char_digit_not_special x (h x hx)).1
  have hstrip : stripWs s.toList = s.data := stripWs_eq_self _ hw
  cases hd : s.data with
  | nil => exact absurd hd hne
  | cons c rest =>
    rw [hd] at hstrip h
    have hc := h c (by simp)
    have hv : pyDigitsValid (c :: rest) = true := by
      show (c.isDigit && pyDigitsTail rest) = true
      rw [hc, pyDigitsTail_of_all_digits rest (fun x hx => h x (List.mem_cons_of_mem _ hx))]
      rfl
    simp only [pyInt, hstrip]
    rw [if_neg (char_digit_not_special c hc).2.2.1,
      if_neg (char_digit_not_special c hc).2.2.2, if_pos hv]

lemma string_join_data (ss : List String) :
    (String.join ss).data = (ss.map String.data).flatten := by
  have h : ∀ acc : String,
      (ss.foldl (· ++ ·) acc).data = acc.data ++ (ss.map String.data).flatten := by
    induction ss with
    | nil => intro acc; simp
    | cons s ss ih =>
      intro acc
      simp only [List.foldl_cons, ih, String.data_append, List.map_cons,
        List.flatten_cons, List.append_assoc]
  simpa [String.join] using h ""

lemma randomChoice_demoActions_mem (r : Nat) : randomChoice demoActions r ∈ demoActions := by
  have h : r % demoActions.length < demoActions.length := Nat.mod_lt _ (by decide)
  unfold randomChoice
  rw [List.getD_eq_getElem _ _ h]
  exact List.getElem_mem h

lemma duck_state_eq (d : Dino) (p : Page) (delay : Option Rat) :
    (Dino.duck d p delay).state = d := by
  unfold Dino.duck
  cases delay with
  | some t => rfl
  | none =>
    rcases hpx : d.pterodactylx with _ | px
    · simp [hpx]
    · simp only [hpx]
      by_cases h : p.currentSpeed = 0 <;> simp [h]

/-! ## Claim theorems -/

/-- C5: starting the session either launches or attaches.  For every object
state: the first page interaction of `_setup` is the navigation to the
configured URL; the driver afterwards is the supplied one, or the freshly
created Chrome driver when none was supplied; a driver is created exactly
when none was supplied, with option arguments containing `--mute-audio`
exactly when `mute` is true; and when a driver was supplied no creation
event precedes the navigation. -/
theorem C5_setup_launch_or_attach (d : Dino) (p : Page) (fresh : Nat) :
    ((Dino._setup d p fresh).1.filter DriverEvent.isPageInteraction).head? =
      some (.navigate d.url) ∧
    (Dino._setup d p fresh).2._driver = some (d._driver.getD fresh) ∧
    ((Dino._setup d p fresh).1.filter fun e => !e.isPageInteraction) =
      (if d._driver = Option.none then
        [DriverEvent.createChrome (chromeOptionArgs d._mute)] else []) ∧
    ("--mute-audio" ∈ chromeOptionArgs d._mute ↔ d._mute = true) ∧
    (Dino._setup d p fresh).1.head? =
      (if d._driver = Option.none then
        some (DriverEvent.createChrome (chromeOptionArgs d._mute))
       else some (.navigate d.url)) := by
  rcases hdr : d._driver with _ | h <;> cases hm : d._mute <;>
    simp [Dino._setup, chromeOptionArgs, DriverEvent.isPageInteraction, hdr, hm]

/-- C8: `duck` with no delay argument queries the current speed first (one
script evaluation), raises `ZeroDivisionError` when the speed is zero, and
otherwise ducks for exactly half a second, whatever the speed and the
pterodactyl width were. -/
theorem C8_duck_default_delay (d : Dino) (p : Page) (px : Int)
    (hpx : d.pterodactylx = some px) :
    (Dino.duck d p Option.none).trace.head? =
      some (.executeScript ("return " ++ "Runner.instance_.currentSpeed")) ∧
    (p.currentSpeed = 0 →
      (Dino.duck d p Option.none).result = .raised .zeroDivisionError ∧
      (Dino.duck d p Option.none).sleeps = []) ∧
    (p.currentSpeed ≠ 0 →
      (Dino.duck d p Option.none).sleeps = [1/2] ∧
      (Dino.duck d p Option.none).result = .ok .pyNone) := by
  by_cases h : p.currentSpeed = 0 <;> simp [Dino.duck, hpx, h]

/-- C8 witness: on a concrete mid-game page with speed 6, the default duck
duration is half a second. -/
theorem C8_duck_default_delay_witness :
    (Dino.duck readyDino defaultPage Option.none).sleeps = [1/2] :=
  ((C8_duck_default_delay readyDino defaultPage 134 rfl).2.2 (by decide)).1

/-- C9: `end` never raises: for every driver state and every outcome of
`driver.close()` (including a raised exception), the call returns normally
and leaves the object unchanged; when a driver exists the close is
attempted. -/
theorem C9_end_never_raises (d : Dino) (closeOutcome : Option PyError) :
    (Dino.end' d closeOutcome).result = .ok .pyNone ∧
    (Dino.end' d closeOutcome).state = d ∧
    (∀ h : Nat, d._driver = some h →
      (Dino.end' d closeOutcome).trace = [DriverEvent.close]) := by
  rcases hdr : d._driver with _ | h <;> simp [Dino.end', hdr]

/-- C9 witness: `end` on a live session whose `close()` raises still
returns normally. -/
theorem C9_end_never_raises_witness :
    (Dino.end' readyDino (some (PyError.attributeError "session"))).result = .ok .pyNone :=
  (C9_end_never_raises readyDino (some (PyError.attributeError "session"))).1

/-- C10: constructing with `url=None` stores `"chrome://dino/"`,
constructing with a non-None url stores exactly that value, and the only
navigation `_setup` performs goes to the stored URL. -/
theorem C10_url_default_and_override (driver : Option Nat) (mute : Bool) (u : String)
    (d : Dino) (p : Page) (fresh : Nat) :
    (Dino.init driver Option.none mute).url = "chrome://dino/" ∧
    (Dino.init driver (some u) mute).url = u ∧
    (Dino._setup d p fresh).1.filter DriverEvent.isNavigate = [.navigate d.url] := by
  refine ⟨rfl, rfl, ?_⟩
  rcases hdr : d._driver with _ | h <;>
    simp [Dino._setup, DriverEvent.isNavigate, hdr]

/-- C1 counterexample: not every public operation is a single driver
interaction leaving the object unchanged.  `duck()` on a ready object
performs three driver interactions (a speed query and two key events), and
`start` on a freshly constructed object changes the object's fields. -/
theorem C1_counterexample :
    (Dino.duck readyDino defaultPage Option.none).trace.length = 3 ∧
    (Dino.duck readyDino defaultPage Option.none).trace.length ≠ 1 ∧
    (Dino.start (Dino.init (some 1) Option.none true) defaultPage 5 3).state ≠
      Dino.init (some 1) Option.none true := by decide

/-- C1 (amended): every public operation except `start` and `duck` performs
a single driver interaction and leaves every field unchanged (on an object
with a live driver and a located body element); `duck` also leaves every
field unchanged but performs two key events, preceded by a speed query when
no delay argument is given. -/
theorem C1_amended (op : PublicOp) (d : Dino) (p : Page) (a : OpArgs)
    (dr b : Nat) (px : Int) (t : Rat)
    (hop : op ∈ singleShotOps) (hd : d._driver = some dr) (hb : d.body = some b)
    (hpx : d.pterodactylx = some px) (hs : p.currentSpeed ≠ 0) :
    ((runOp op d p a).trace.length = 1 ∧ (runOp op d p a).state = d) ∧
    ((Dino.duck d p (some t)).trace = [.keyDown .shift, .keyUp .shift] ∧
      (Dino.duck d p (some t)).state = d) ∧
    ((Dino.duck d p Option.none).trace =
        [.executeScript ("return " ++ "Runner.instance_.currentSpeed"),
         .keyDown .shift, .keyUp .shift] ∧
      (Dino.duck d p Option.none).state = d) := by
  refine ⟨?_, ⟨by simp [Dino.duck], duck_state_eq d p (some t)⟩,
    ⟨by simp [Dino.duck, hpx, hs], duck_state_eq d p Option.none⟩⟩
  fin_cases hop <;>
    simp [runOp, Dino.jump, Dino.cancelJump, Dino.pause, Dino.resume, Dino.end',
      Dino.getProperty, Dino.crashed, Dino.playing, Dino.score, Dino.speed,
      Dino.image, Dino.obstacles, Dino.tRex, hd, hb]

/-- C1 witness: `jump` on a concrete ready object is one driver interaction. -/
theorem C1_amended_witness :
    (runOp PublicOp.jump readyDino defaultPage demoArgs).trace.length = 1 :=
  (C1_amended PublicOp.jump readyDino defaultPage demoArgs 1 2 134 (1/2)
    (by decide) rfl rfl rfl (by decide)).1.1

/-- C2 counterexample: `pause` does not send a keystroke; its only driver
interaction is a script evaluation. -/
theorem C2_counterexample :
    (Dino.pause readyDino).trace = [.executeScript pauseScript] ∧
    (Dino.pause readyDino).trace.all (fun e => !e.isKeystroke) = true ∧
    (Dino.pause readyDino).trace.all DriverEvent.isScriptEval = true := by decide

/-- C2 (amended): `jump`, `duck` and `cancelJump` drive the game by
synthetic keystrokes (`duck` with no delay argument additionally evaluates
one script to read the speed), while `pause` and `resume` drive it by
script evaluation and send no keystroke. -/
theorem C2_amended (d : Dino) (p : Page) (b dr : Nat) (px : Int) (t : Rat)
    (hb : d.body = some b) (hd : d._driver = some dr) (hpx : d.pterodactylx = some px)
    (hs : p.currentSpeed ≠ 0) :
    (Dino.jump d).trace = [.sendKeys b .space] ∧
    (Dino.cancelJump d).trace = [.sendKeys b .arrowDown] ∧
    (Dino.duck d p (some t)).trace = [.keyDown .shift, .keyUp .shift] ∧
    (Dino.duck d p Option.none).trace =
      [.executeScript ("return " ++ "Runner.instance_.currentSpeed"),
       .keyDown .shift, .keyUp .shift] ∧
    ((Dino.jump d).trace ++ (Dino.cancelJump d).trace ++
      (Dino.duck d p (some t)).trace).all DriverEvent.isKeystroke = true ∧
    (Dino.pause d).trace = [.executeScript pauseScript] ∧
    (Dino.resume d).trace = [.executeScript resumeScript] ∧
    ((Dino.pause d).trace ++ (Dino.resume d).trace).all
      (fun e => e.isScriptEval && !e.isKeystroke) = true := by
  simp [Dino.jump, Dino.cancelJump, Dino.duck, Dino.pause, Dino.resume,
    DriverEvent.isKeystroke, DriverEvent.isScriptEval, hb, hd, hpx, hs]

/-- C2 witness: `jump` on a concrete ready object sends the space key. -/
theorem C2_amended_witness :
    (Dino.jump readyDino).trace = [.sendKeys 2 .space] :=
  (C2_amended readyDino defaultPage 2 1 134 (1/2) rfl rfl rfl (by decide)).1

/-- C3 counterexample: the `image` accessor evaluates a script that reads
the canvas element from the document and never mentions the `Runner`
game object, unlike the `crashed` accessor's script. -/
theorem C3_counterexample :
    (Dino.image readyDino defaultPage).trace = [.executeScript imageScript] ∧
    mentionsRunnerGlobal imageScript = false ∧
    mentionsRunnerGlobal ("return " ++ "Runner.instance_.crashed") = true := by decide

/-- C3 (amended): every game-state accessor reads its value through exactly
one inline script evaluation; the scripts of `crashed`, `playing`, `score`,
`speed`, `obstacles` and `tRex` query the `Runner.instance_` game object,
while the `image` script reads the canvas element from the document. -/
theorem C3_amended (op : PublicOp) (d : Dino) (p : Page) (a : OpArgs) (dr : Nat)
    (hop : op ∈ accessorOps) (hd : d._driver = some dr) :
    ∃ s, (runOp op d p a).trace = [.executeScript s] ∧
      (op ≠ .image → mentionsRunnerGlobal s = true) ∧
      (op = .image → mentionsRunnerGlobal s = false) := by
  fin_cases hop
  · exact ⟨"return " ++ "Runner.instance_.crashed",
      by simp [runOp, Dino.crashed, Dino.getProperty, hd],
      fun _ => by decide, fun h => absurd h (by decide)⟩
  · exact ⟨"return " ++ "Runner.instance_.playing",
      by simp [runOp, Dino.playing, Dino.getProperty, hd],
      fun _ => by decide, fun h => absurd h (by decide)⟩
  · exact ⟨"return " ++ "Runner.instance_.distanceMeter.digits",
      by simp [runOp, Dino.score, Dino.getProperty, hd],
      fun _ => by decide, fun h => absurd h (by decide)⟩
  · exact ⟨"return " ++ "Runner.instance_.currentSpeed",
      by simp [runOp, Dino.speed, Dino.getProperty, hd],
      fun _ => by decide, fun h => absurd h (by decide)⟩
  · exact ⟨obstaclesScript, by simp [runOp, Dino.obstacles, hd],
      fun _ => by decide, fun h => absurd h (by decide)⟩
  · exact ⟨tRexScript, by simp [runOp, Dino.tRex, hd],
      fun _ => by decide, fun h => absurd h (by decide)⟩
  · exact ⟨imageScript, by simp [runOp, Dino.image, hd],
      fun h => absurd rfl h, fun _ => by decide⟩

/-- C3 witness: the `crashed` accessor on a concrete ready object. -/
theorem C3_amended_witness :
    ∃ s, (runOp PublicOp.crashed readyDino defaultPage demoArgs).trace =
        [.executeScript s] ∧
      (PublicOp.crashed ≠ PublicOp.image → mentionsRunnerGlobal s = true) ∧
      (PublicOp.crashed = PublicOp.image → mentionsRunnerGlobal s = false) :=
  C3_amended PublicOp.crashed readyDino defaultPage demoArgs 1 (by decide) rfl

/-- C4 counterexample: with digits array `["-5"]` — an entry containing a
non-digit character — `score` does not fail: Python `int` accepts an
optional sign, so the call returns `-5`. -/
theorem C4_counterexample :
    ("-5".toList.all Char.isDigit) = false ∧
    (Dino.score readyDino { defaultPage with digits := ["-5"] }).result =
      .ok (.int (-5)) := by decide

/-- C4 (amended): `score` joins the digit strings of the distance meter and
applies Python `int` to the concatenation.  When every entry is a nonempty
string of decimal digits, it returns the decimal value of the
concatenation; it fails when the array is empty (more generally, whenever
the concatenation is not a valid Python integer literal).  The value is
read by a single script evaluation. -/
theorem C4_amended (d : Dino) (p q : Page) (dr : Nat) (hd : d._driver = some dr)
    (hne : p.digits ≠ [])
    (hent : ∀ s ∈ p.digits, s ≠ "" ∧ s.data.all Char.isDigit = true)
    (hq : q.digits = []) :
    (Dino.score d p).result =
      .ok (.int (digitsVal (String.join p.digits).data)) ∧
    (Dino.score d p).trace =
      [.executeScript ("return " ++ "Runner.instance_.distanceMeter.digits")] ∧
    (Dino.score d q).result = .raised (.valueError "") := by
  have hdata : (String.join p.digits).data ≠ [] := by
    obtain ⟨s0, ss, hps⟩ := List.exists_cons_of_ne_nil hne
    rw [string_join_data, hps]
    simp only [List.map_cons, List.flatten_cons]
    intro hcontra
    have h0 : s0.data = [] := (List.append_eq_nil.mp hcontra).1
    exact (hent s0 (by rw [hps]; simp)).1 (string_eq_empty_of_data_eq_nil s0 h0)
  have hall : ∀ x ∈ (String.join p.digits).data, x.isDigit = true := by
    rw [string_join_data]
    intro x hx
    obtain ⟨l, hl, hxl⟩ := List.mem_flatten.mp hx
    obtain ⟨s, hs, rfl⟩ := List.mem_map.mp hl
    exact List.all_eq_true.mp (hent s hs).2 x hxl
  refine ⟨?_, by simp [Dino.score, Dino.getProperty, hd], ?_⟩
  · simp only [Dino.score, Dino.getProperty, hd]
    rw [pyInt_of_all_digits _ hdata hall]
  · simp only [Dino.score, Dino.getProperty, hd, hq]
    rfl

/-- C4 witness: on a concrete page whose digits are `["0","0","1","2","3"]`
the score is 123, and on a concrete page with an empty digits array the
call raises. -/
theorem C4_amended_witness :
    (Dino.score readyDino defaultPage).result = .ok (.int 123) ∧
    (Dino.score readyDino { defaultPage with digits := [] }).result =
      .raised (.valueError "") := by
  have h := C4_amended readyDino defaultPage { defaultPage with digits := [] } 1
    rfl (by decide) (by decide) rfl
  exact ⟨by rw [h.1]; rfl, h.2.2⟩

/-- C6 counterexample: the class has fifteen public methods and properties,
not fourteen. -/
theorem C6_counterexample :
    publicMembers.length = 15 ∧ publicMembers.length ≠ 14 := by decide

/-- C6 (amended): the public interface consists of exactly fifteen methods
and properties: the accessors `crashed`, `playing`, `score`, `speed`,
`obstacles`, `tRex`, `image`, the actions `jump`, `duck`, `cancelJump`,
`pause`, `resume`, plus `start`, `end` and `getProperty`. -/
theorem C6_amended :
    publicMembers.length = 15 ∧
    (["score", "speed", "crashed", "playing", "obstacles", "tRex", "image",
      "jump", "duck", "cancelJump", "pause", "resume"].all
        (fun s => publicMembers.contains s)) = true ∧
    "start" ∈ publicMembers ∧ "end" ∈ publicMembers ∧
    "getProperty" ∈ publicMembers := by decide

/-- C7 counterexample: two runs of the demo loop with the same random draws
but different game states perform different action sequences: with the
draws choosing `duck` then `jump`, a page whose speed is zero makes `duck`
raise, ending the loop after one action. -/
theorem C7_counterexample :
    demoRun [10, 0] readyDino stoppedPage = [.duck] ∧
    demoRun [10, 0] readyDino defaultPage = [.duck, .jump] ∧
    demoRun [10, 0] readyDino stoppedPage ≠
      demoRun [10, 0] readyDino defaultPage := by decide

/-- C7 (amended): the demo loop chooses every action at random from `jump`,
`duck` and `cancelJump`, and the chosen sequence depends only on the random
draws; the performed sequence is a prefix of the chosen one for every
object and page (an action that raises ends the loop), and equals it
whenever no chosen action raises (live body and driver, speed nonzero). -/
theorem C7_amended (draws : List Nat) (d d2 : Dino) (p p2 : Page)
    (b : Nat) (px : Int)
    (hb : d.body = some b)
    (hpx : d.pterodactylx = some px) (hs : p.currentSpeed ≠ 0) :
    (∀ op ∈ demoChosen draws,
      op = PublicOp.jump ∨ op = PublicOp.duck ∨ op = PublicOp.cancelJump) ∧
    demoRun draws d2 p2 <+: demoChosen draws ∧
    demoRun draws d p = demoChosen draws := by
  have hall : ∀ x ∈ demoActions,
      x = PublicOp.jump ∨ x = PublicOp.duck ∨ x = PublicOp.cancelJump := by decide
  refine ⟨?_, ?_, ?_⟩
  · intro op hop
    obtain ⟨r, _, rfl⟩ := List.mem_map.mp hop
    exact hall _ (randomChoice_demoActions_mem r)
  · induction draws with
    | nil => simp [demoRun, demoChosen]
    | cons r rs ih =>
      simp only [demoRun, demoChosen, List.map_cons]
      cases hres : (runOp (randomChoice demoActions r) d2 p2 demoArgs).result with
      | raised e => exact ⟨demoChosen rs, rfl⟩
      | ok v =>
        obtain ⟨t, ht⟩ := ih
        exact ⟨t, by simp only [demoChosen] at ht; rw [List.cons_append, ht]⟩
  · induction draws with
    | nil => rfl
    | cons r rs ih =>
      have hok : (runOp (randomChoice demoActions r) d p demoArgs).result =
          .ok Value.pyNone := by
        rcases hall _ (randomChoice_demoActions_mem r) with h1 | h1 | h1 <;> rw [h1] <;>
          simp [runOp, Dino.jump, Dino.cancelJump, Dino.duck, demoArgs, hb, hpx, hs]
      simp only [demoRun, demoChosen, List.map_cons]
      rw [hok, ih]
      simp [demoChosen]

/-- C7 witness: a concrete three-draw run on a live mid-game page performs
exactly the chosen sequence. -/
theorem C7_amended_witness :
    demoRun [0, 10, 11] readyDino defaultPage = demoChosen [0, 10, 11] :=
  (C7_amended [0, 10, 11] readyDino readyDino defaultPage defaultPage 2 134
    rfl rfl (by decide)).2.2

end DinoPy
